import Mathlib

/-!
Verification of the trace-log correlation core of OpsPilot
(`log_analyzer.py`): per-line correlation matching, timestamp
extraction, log-level detection, stack-trace collection, single-source
extraction, and the chronological merge across sources.

Lines are modelled as `List Char` (Python `str`).  Character classes
(`\d`, `\s`, case folding) are modelled over ASCII, which covers every
character class occurrence reachable from the log formats at issue.
File I/O is modelled by passing a source's line list directly; a source
whose read fails is `none`.
-/

namespace OpsPilot

/-- Python `\s` over ASCII: space, tab, newline, carriage return,
vertical tab, form feed. -/
def isPySpace (c : Char) : Bool :=
  c = ' ' || c = '\t' || c = '\n' || c = '\r' || c = '\x0b' || c = '\x0c'

/-- ASCII lower-casing, as applied by `re.IGNORECASE` to the literal
(escaped) pattern characters that occur here. -/
def lowerChar (c : Char) : Char :=
  if 'A' ≤ c && c ≤ 'Z' then Char.ofNat (c.toNat + 32) else c

/-- `pat` is a (case-sensitive) prefix of `s` — Python `str.startswith`
and the anchored step of substring search. -/
def matchLit : List Char → List Char → Bool
  | [], _ => true
  | _ :: _, [] => false
  | p :: ps, c :: cs => p = c && matchLit ps cs

/-- `pat` is a case-insensitive prefix of `s`. -/
def matchLitCI : List Char → List Char → Bool
  | [], _ => true
  | _ :: _, [] => false
  | p :: ps, c :: cs => lowerChar p = lowerChar c && matchLitCI ps cs

/-- `re.search`-style scan: does `f` accept some suffix of `s`
(including the empty suffix)? -/
def searchAny (f : List Char → Bool) : List Char → Bool
  | [] => f []
  | c :: cs => f (c :: cs) || searchAny f cs

/-- Python `pat in s` (case-sensitive substring test). -/
def containsLit (pat s : List Char) : Bool :=
  searchAny (matchLit pat) s

/-- Case-insensitive substring test, i.e. `re.search(re.escape(pat), s,
re.IGNORECASE)`. -/
def containsCI (pat s : List Char) : Bool :=
  searchAny (matchLitCI pat) s

/-- Regex `\s*id` anchored at the front of `s`, case-insensitive in
`id`: some (possibly empty) run of whitespace followed by `id`. -/
def wsStarThen (idp : List Char) : List Char → Bool
  | [] => matchLitCI idp []
  | c :: cs => matchLitCI idp (c :: cs) || (isPySpace c && wsStarThen idp cs)

/-- Regex `key[=:]\s*id` anchored at the front of `s`, case-insensitive
(`log_analyzer.py` line 380-386 builds these from `re.escape(trace_id)`
and searches with `re.IGNORECASE`). -/
def matchKeyIdAt (key idp s : List Char) : Bool :=
  matchLitCI key s &&
    match s.drop key.length with
    | c :: cs => (c = '=' || c = ':') && wsStarThen idp cs
    | [] => false

/-- The correlation-match test of `_parse_trace_logs` (lines 380-394):
`any(re.search(p, line, re.IGNORECASE) for p in trace_patterns)` with
the six patterns `traceId[=:]\s*id`, `trace_id[=:]\s*id`, `[id]`,
`requestId[=:]\s*id`, `request_id[=:]\s*id`, and the bare escaped id. -/
def matchesTraceLine (tid line : List Char) : Bool :=
  searchAny (matchKeyIdAt ("traceId".toList) tid) line ||
  searchAny (matchKeyIdAt ("trace_id".toList) tid) line ||
  containsCI ('[' :: (tid ++ [']'])) line ||
  searchAny (matchKeyIdAt ("requestId".toList) tid) line ||
  searchAny (matchKeyIdAt ("request_id".toList) tid) line ||
  containsCI tid line

/-- Exactly `n` ASCII digits from the front of `s`, returning the
digits and the rest. -/
def takeDigits : Nat → List Char → Option (List Char × List Char)
  | 0, s => some ([], s)
  | _ + 1, [] => none
  | n + 1, c :: cs =>
    if c.isDigit then (takeDigits n cs).map (fun p => (c :: p.1, p.2)) else none

/-- A single required literal character. -/
def takeChar (ch : Char) : List Char → Option (List Char × List Char)
  | [] => none
  | c :: cs => if c = ch then some ([c], cs) else none

/-- Regex `\s+` followed (in the timestamp patterns) by a digit: the
maximal nonempty whitespace run. -/
def takeWs1 (s : List Char) : Option (List Char × List Char) :=
  let ws := s.takeWhile isPySpace
  if ws.isEmpty then none else some (ws, s.dropWhile isPySpace)

/-- Regex `\d{4}-\d{2}-\d{2}\s+\d{2}:\d{2}:\d{2}` anchored at the front
of `s`, returning the matched substring. -/
def matchTs1 (s : List Char) : Option (List Char) := do
  let (d1, s) ← takeDigits 4 s
  let (h1, s) ← takeChar '-' s
  let (d2, s) ← takeDigits 2 s
  let (h2, s) ← takeChar '-' s
  let (d3, s) ← takeDigits 2 s
  let (w, s) ← takeWs1 s
  let (t1, s) ← takeDigits 2 s
  let (c1, s) ← takeChar ':' s
  let (t2, s) ← takeDigits 2 s
  let (c2, s) ← takeChar ':' s
  let (t3, _) ← takeDigits 2 s
  pure (d1 ++ h1 ++ d2 ++ h2 ++ d3 ++ w ++ t1 ++ c1 ++ t2 ++ c2 ++ t3)

/-- Regex `\d{4}-\d{2}-\d{2}T\d{2}:\d{2}:\d{2}` anchored at the front
of `s`. -/
def matchTs2 (s : List Char) : Option (List Char) := do
  let (d1, s) ← takeDigits 4 s
  let (h1, s) ← takeChar '-' s
  let (d2, s) ← takeDigits 2 s
  let (h2, s) ← takeChar '-' s
  let (d3, s) ← takeDigits 2 s
  let (w, s) ← takeChar 'T' s
  let (t1, s) ← takeDigits 2 s
  let (c1, s) ← takeChar ':' s
  let (t2, s) ← takeDigits 2 s
  let (c2, s) ← takeChar ':' s
  let (t3, _) ← takeDigits 2 s
  pure (d1 ++ h1 ++ d2 ++ h2 ++ d3 ++ w ++ t1 ++ c1 ++ t2 ++ c2 ++ t3)

/-- Regex `\d{2}/\d{2}/\d{4}\s+\d{2}:\d{2}:\d{2}` anchored at the front
of `s`. -/
def matchTs3 (s : List Char) : Option (List Char) := do
  let (d1, s) ← takeDigits 2 s
  let (h1, s) ← takeChar '/' s
  let (d2, s) ← takeDigits 2 s
  let (h2, s) ← takeChar '/' s
  let (d3, s) ← takeDigits 4 s
  let (w, s) ← takeWs1 s
  let (t1, s) ← takeDigits 2 s
  let (c1, s) ← takeChar ':' s
  let (t2, s) ← takeDigits 2 s
  let (c2, s) ← takeChar ':' s
  let (t3, _) ← takeDigits 2 s
  pure (d1 ++ h1 ++ d2 ++ h2 ++ d3 ++ w ++ t1 ++ c1 ++ t2 ++ c2 ++ t3)

/-- Leftmost `re.search`: try the anchored matcher at each successive
position. -/
def searchFirst (f : List Char → Option (List Char)) : List Char → Option (List Char)
  | [] => f []
  | c :: cs =>
    match f (c :: cs) with
    | some m => some m
    | none => searchFirst f cs

/-- The timestamp-absent sentinel of `_extract_timestamp`. -/
def unknownTs : List Char := "Unknown".toList

/-- `_extract_timestamp` (lines 244-266): the three patterns are tried
in order against the whole line; the first pattern that occurs anywhere
returns its leftmost match, otherwise the sentinel `Unknown`. -/
def extract_timestamp (line : List Char) : List Char :=
  match searchFirst matchTs1 line with
  | some m => m
  | none =>
    match searchFirst matchTs2 line with
    | some m => m
    | none =>
      match searchFirst matchTs3 line with
      | some m => m
      | none => unknownTs

/-- The five level values produced by `_extract_log_level`. -/
inductive LogLevel where
  | ERROR
  | WARN
  | INFO
  | DEBUG
  | UNKNOWN
deriving DecidableEq, Repr

/-- `_extract_log_level` (lines 447-466): case-sensitive containment of
the uppercase keywords, tried in precedence order
ERROR > WARN > INFO > DEBUG, defaulting to UNKNOWN. -/
def extract_log_level (line : List Char) : LogLevel :=
  if containsLit ("ERROR".toList) line then .ERROR
  else if containsLit ("WARN".toList) line then .WARN
  else if containsLit ("INFO".toList) line then .INFO
  else if containsLit ("DEBUG".toList) line then .DEBUG
  else .UNKNOWN

/-!
Model of `_sort_logs_by_timestamp`'s key function (lines 693-736):
`datetime.strptime` is tried with five formats; a parsed `datetime` is
a lexicographically ordered tuple of fields, modelled by an injective
mixed-radix numeric key.  Python's `_strptime` compiles each directive
to a regex alternation (with `re.IGNORECASE`), matches anchored at the
start, requires the whole string to be consumed, and then the
`datetime` constructor validates the fields (year 1..9999, month 1..12,
day 1..days-in-month, hour ≤ 23, minute ≤ 59, second ≤ 59,
microsecond ≤ 999999).  The alternation candidates below are listed in
the regex's priority order and the interpreter returns all parses in
backtracking order, whose head is the regex's match.
-/

/-- Format directives of the five formats used by `parse_timestamp`. -/
inductive FTok where
  | Y
  | m
  | d
  | H
  | M
  | S
  | f
  | lit (c : Char)
  | ws
deriving DecidableEq, Repr

/-- Numeric value of an ASCII digit. -/
def dv (c : Char) : Nat := c.toNat - 48

/-- Digit-string to number. -/
def digitsToNat (l : List Char) : Nat :=
  l.foldl (fun n c => n * 10 + dv c) 0

/-- `%Y` — regex `\d\d\d\d`. -/
def candsY : List Char → List (Nat × List Char)
  | a :: b :: c :: d :: rest =>
    if a.isDigit && b.isDigit && c.isDigit && d.isDigit then
      [(((dv a * 10 + dv b) * 10 + dv c) * 10 + dv d, rest)]
    else []
  | _ => []

/-- `%m` — regex `1[0-2]|0[1-9]|[1-9]`, candidates in priority order. -/
def candsMonth : List Char → List (Nat × List Char)
  | a :: b :: rest =>
    (if a = '1' && ('0' ≤ b && b ≤ '2') then [(10 + dv b, rest)] else []) ++
    (if a = '0' && ('1' ≤ b && b ≤ '9') then [(dv b, rest)] else []) ++
    (if '1' ≤ a && a ≤ '9' then [(dv a, b :: rest)] else [])
  | [a] => if '1' ≤ a && a ≤ '9' then [(dv a, [])] else []
  | [] => []

/-- `%d` — regex `3[0-1]|[1-2]\d|0[1-9]|[1-9]| [1-9]`. -/
def candsDay : List Char → List (Nat × List Char)
  | a :: b :: rest =>
    (if a = '3' && ('0' ≤ b && b ≤ '1') then [(30 + dv b, rest)] else []) ++
    (if ('1' ≤ a && a ≤ '2') && b.isDigit then [(dv a * 10 + dv b, rest)] else []) ++
    (if a = '0' && ('1' ≤ b && b ≤ '9') then [(dv b, rest)] else []) ++
    (if '1' ≤ a && a ≤ '9' then [(dv a, b :: rest)] else []) ++
    (if a = ' ' && ('1' ≤ b && b ≤ '9') then [(dv b, rest)] else [])
  | [a] => if '1' ≤ a && a ≤ '9' then [(dv a, [])] else []
  | [] => []

/-- `%H` — regex `2[0-3]|[0-1]\d|\d`. -/
def candsHour : List Char → List (Nat × List Char)
  | a :: b :: rest =>
    (if a = '2' && ('0' ≤ b && b ≤ '3') then [(20 + dv b, rest)] else []) ++
    (if ('0' ≤ a && a ≤ '1') && b.isDigit then [(dv a * 10 + dv b, rest)] else []) ++
    (if a.isDigit then [(dv a, b :: rest)] else [])
  | [a] => if a.isDigit then [(dv a, [])] else []
  | [] => []

/-- `%M` — regex `[0-5]\d|\d`. -/
def candsMin : List Char → List (Nat × List Char)
  | a :: b :: rest =>
    (if ('0' ≤ a && a ≤ '5') && b.isDigit then [(dv a * 10 + dv b, rest)] else []) ++
    (if a.isDigit then [(dv a, b :: rest)] else [])
  | [a] => if a.isDigit then [(dv a, [])] else []
  | [] => []

/-- `%S` — regex `6[0-1]|[0-5]\d|\d`. -/
def candsSec : List Char → List (Nat × List Char)
  | a :: b :: rest =>
    (if a = '6' && ('0' ≤ b && b ≤ '1') then [(60 + dv b, rest)] else []) ++
    (if ('0' ≤ a && a ≤ '5') && b.isDigit then [(dv a * 10 + dv b, rest)] else []) ++
    (if a.isDigit then [(dv a, b :: rest)] else [])
  | [a] => if a.isDigit then [(dv a, [])] else []
  | [] => []

/-- `%f` — regex `[0-9]{1,6}`, greedy so longer candidates first; the
matched digits are right-padded to microseconds. -/
def candsFrac (s : List Char) : List (Nat × List Char) :=
  let digs := (s.takeWhile Char.isDigit).take 6
  (List.range digs.length).map (fun k =>
    let len := digs.length - k
    (digitsToNat (digs.take len) * 10 ^ (6 - len), s.drop len))

/-- A literal format character; `_strptime` compiles the whole pattern
with `re.IGNORECASE`. -/
def candsLit (ch : Char) : List Char → List (Nat × List Char)
  | [] => []
  | c :: cs => if lowerChar c = lowerChar ch then [(0, cs)] else []

/-- Whitespace in the format — regex `\s+`, greedy so longer runs
first. -/
def candsWs (s : List Char) : List (Nat × List Char) :=
  let wsr := s.takeWhile isPySpace
  (List.range wsr.length).map (fun k => (0, s.drop (wsr.length - k)))

/-- The fields of a parsed Python `datetime`. -/
structure PyDT where
  year : Nat
  month : Nat
  day : Nat
  hour : Nat
  minute : Nat
  second : Nat
  micro : Nat
deriving DecidableEq, Repr

/-- `strptime` defaults: 1900-01-01 00:00:00.000000. -/
def dt0 : PyDT := ⟨1900, 1, 1, 0, 0, 0, 0⟩

def candsFor : FTok → List Char → List (Nat × List Char)
  | .Y, s => candsY s
  | .m, s => candsMonth s
  | .d, s => candsDay s
  | .H, s => candsHour s
  | .M, s => candsMin s
  | .S, s => candsSec s
  | .f, s => candsFrac s
  | .lit c, s => candsLit c s
  | .ws, s => candsWs s

def setTok (t : FTok) (v : Nat) (dt : PyDT) : PyDT :=
  match t with
  | .Y => { dt with year := v }
  | .m => { dt with month := v }
  | .d => { dt with day := v }
  | .H => { dt with hour := v }
  | .M => { dt with minute := v }
  | .S => { dt with second := v }
  | .f => { dt with micro := v }
  | .lit _ => dt
  | .ws => dt

/-- All parses of a directive list against `s`, in the regex engine's
backtracking order; the head is the match the engine returns. -/
def runFmt : List FTok → PyDT → List Char → List (PyDT × List Char)
  | [], dt, s => [(dt, s)]
  | t :: ts, dt, s =>
    (candsFor t s).flatMap (fun p => runFmt ts (setTok t p.1 dt) p.2)

/-- Gregorian leap year, as Python's `calendar`/`datetime`. -/
def isLeapYear (y : Nat) : Bool :=
  y % 4 = 0 && (y % 100 ≠ 0 || y % 400 = 0)

def daysInMonth (y mo : Nat) : Nat :=
  if mo = 2 then (if isLeapYear y then 29 else 28)
  else if mo = 4 || mo = 6 || mo = 9 || mo = 11 then 30
  else 31

/-- The `datetime` constructor's range validation. -/
def validPyDT (t : PyDT) : Bool :=
  1 ≤ t.year && t.year ≤ 9999 && 1 ≤ t.month && t.month ≤ 12 &&
  1 ≤ t.day && t.day ≤ daysInMonth t.year t.month &&
  t.hour ≤ 23 && t.minute ≤ 59 && t.second ≤ 59 && t.micro ≤ 999999

/-- Injective mixed-radix key realising the lexicographic order of
`datetime` fields (each factor exceeds the field's validated bound). -/
def dtKey (t : PyDT) : Nat :=
  ((((((t.year * 13 + t.month) * 32 + t.day) * 24 + t.hour) * 60 +
    t.minute) * 60 + t.second) * 1000000) + t.micro

/-- The key of `datetime.min` = 0001-01-01 00:00:00. -/
def dtMinKey : Nat := dtKey ⟨1, 1, 1, 0, 0, 0, 0⟩

/-- One `datetime.strptime(s, fmt)` attempt: the engine's match must
consume the whole string and the fields must pass constructor
validation. -/
def strptimeKey (fmt : List FTok) (s : List Char) : Option Nat :=
  match (runFmt fmt dt0 s).head? with
  | some (t, rest) =>
    if rest.isEmpty && validPyDT t then some (dtKey t) else none
  | none => none

/-- `'%Y-%m-%d %H:%M:%S'`. -/
def fmt1 : List FTok :=
  [.Y, .lit '-', .m, .lit '-', .d, .ws, .H, .lit ':', .M, .lit ':', .S]

/-- `'%Y-%m-%d %H:%M:%S.%f'`. -/
def fmt2 : List FTok := fmt1 ++ [.lit '.', .f]

/-- `'%Y-%m-%dT%H:%M:%S'`. -/
def fmt3 : List FTok :=
  [.Y, .lit '-', .m, .lit '-', .d, .lit 'T', .H, .lit ':', .M, .lit ':', .S]

/-- `'%Y-%m-%dT%H:%M:%S.%f'`. -/
def fmt4 : List FTok := fmt3 ++ [.lit '.', .f]

/-- `'%d/%m/%Y %H:%M:%S'`. -/
def fmt5 : List FTok :=
  [.d, .lit '/', .m, .lit '/', .Y, .ws, .H, .lit ':', .M, .lit ':', .S]

/-- The format list of `parse_timestamp` (lines 712-718), in source
order. -/
def pyFormats : List (List FTok) := [fmt1, fmt2, fmt3, fmt4, fmt5]

/-- The inner `parse_timestamp` of `_sort_logs_by_timestamp`
(lines 705-728), split into its success value: `none` both for the
`Unknown` sentinel and when every format fails.  The source first
strips everything from the first `.` when the string contains `.` but
no `T`, then tries the formats in order. -/
def parse_timestamp_opt (ts : List Char) : Option Nat :=
  if ts = unknownTs then none
  else
    let ts' := if ts.contains '.' && !(ts.contains 'T') then
                 ts.takeWhile (fun c => c ≠ '.')
               else ts
    pyFormats.findSome? (fun fmt => strptimeKey fmt ts')

/-- The sort key itself: failures collapse to `datetime.min`. -/
def parse_timestamp (ts : List Char) : Nat :=
  (parse_timestamp_opt ts).getD dtMinKey

/-- One extracted log entry (`log_entry` dict of `_parse_trace_logs`,
lines 395-401; `source_file` is added by
`_parse_trace_logs_from_directory`, line 666). -/
structure LogEntry where
  line_number : Nat
  timestamp : List Char
  level : LogLevel
  content : List Char
  stack_trace : List (List Char)
  source_file : Option (List Char) := none
deriving DecidableEq, Repr

/-- Python `str.strip()` over ASCII whitespace. -/
def pyStrip (l : List Char) : List Char :=
  ((l.dropWhile isPySpace).reverse.dropWhile isPySpace).reverse

/-- The stack-continuation test of lines 415-417:
`line.startswith('\t') or line.startswith('    ') or
line.startswith('at ')`. -/
def isContinuationLine (l : List Char) : Bool :=
  matchLit ("\t".toList) l || matchLit ("    ".toList) l ||
    matchLit ("at ".toList) l

/-- The scanning loop of `_parse_trace_logs` (lines 389-424) over the
lines of one source: `i` is the 0-based index of the first line of the
argument list within the whole file.  Returns the entry list and the
accumulated (error, warn, info) counts.  An ERROR match consumes the
immediately following continuation lines into its `stack_trace`
(trimmed), and scanning resumes past them.  The first argument is
structural fuel, initialised by the caller to the number of lines;
every iteration consumes at least one line, so the fuel is never
exhausted before the line list is. -/
def parseTraceLines (tid : List Char) : Nat → Nat → List (List Char) → List LogEntry × Nat × Nat × Nat
  | 0, _, _ => ([], 0, 0, 0)
  | _ + 1, _, [] => ([], 0, 0, 0)
  | fuel + 1, i, line :: rest =>
    if matchesTraceLine tid line then
      if extract_log_level line = .ERROR then
        let r := parseTraceLines tid fuel
          (i + 1 + (rest.takeWhile isContinuationLine).length)
          (rest.dropWhile isContinuationLine)
        ({ line_number := i + 1, timestamp := extract_timestamp line,
           level := extract_log_level line, content := pyStrip line,
           stack_trace := (rest.takeWhile isContinuationLine).map pyStrip } :: r.1,
         1 + r.2.1, r.2.2.1, r.2.2.2)
      else
        let r := parseTraceLines tid fuel (i + 1) rest
        ({ line_number := i + 1, timestamp := extract_timestamp line,
           level := extract_log_level line, content := pyStrip line,
           stack_trace := [] } :: r.1,
         r.2.1,
         (if extract_log_level line = .WARN then 1 else 0) + r.2.2.1,
         (if extract_log_level line = .INFO then 1 else 0) + r.2.2.2)
    else
      parseTraceLines tid fuel (i + 1) rest

/-- The result dictionary shared by `_parse_trace_logs` and
`_parse_trace_logs_from_directory`.  The purely descriptive `file`
string (path / "directory scan (n files)") is not modelled. -/
structure TraceResult where
  trace_id : List Char
  total_logs : Nat
  error_count : Nat
  warn_count : Nat
  info_count : Nat
  logs : List LogEntry
  source_files : List (List Char) := []
deriving DecidableEq, Repr

/-- `_parse_trace_logs` (lines 359-445).  A source is its list of raw
lines; `none` models a read that raises, handled by the `except` branch
(lines 435-445) which returns the empty result. -/
def parse_trace_logs (source : Option (List (List Char))) (tid : List Char) : TraceResult :=
  match source with
  | none =>
    { trace_id := tid, total_logs := 0, error_count := 0,
      warn_count := 0, info_count := 0, logs := [] }
  | some lines =>
    let r := parseTraceLines tid lines.length 0 lines
    { trace_id := tid, total_logs := r.1.length, error_count := r.2.1,
      warn_count := r.2.2.1, info_count := r.2.2.2, logs := r.1 }

/-- Merge comparison: at most, by parsed-timestamp key. -/
def logKey (e : LogEntry) : Nat := parse_timestamp e.timestamp

def logLe (a b : LogEntry) : Prop := logKey a ≤ logKey b

instance : DecidableRel logLe := fun a b => Nat.decLe (logKey a) (logKey b)

instance : IsTotal LogEntry logLe := ⟨fun a b => Nat.le_total (logKey a) (logKey b)⟩

instance : IsTrans LogEntry logLe := ⟨fun _ _ _ => Nat.le_trans⟩

/-- `_sort_logs_by_timestamp` (lines 693-736): Python's `sorted` with
`key=parse_timestamp` is a stable sort by the key.  Insertion sort with
the non-strict key comparison is stable and sorted, and any two stable
sorts by the same key agree, so this is extensionally the source's
Timsort.  (The `except` fallback, line 734, is unreachable: the key
function is total.) -/
def sort_logs_by_timestamp (logs : List LogEntry) : List LogEntry :=
  List.insertionSort logLe logs

/-- The accumulation loop of `_parse_trace_logs_from_directory`
(lines 655-673): each source is a (basename, content) pair, processed
in order; sources whose entry list is empty (including failed reads)
contribute nothing.  Returns concatenated tagged entries, summed
counts, and the contributing source names. -/
def gatherDir (tid : List Char) : List (List Char × Option (List (List Char))) → List LogEntry × Nat × Nat × Nat × List (List Char)
  | [] => ([], 0, 0, 0, [])
  | (name, content) :: restSrcs =>
    let fl := parse_trace_logs content tid
    let r := gatherDir tid restSrcs
    if fl.logs.isEmpty then r
    else
      (fl.logs.map (fun e => { e with source_file := some name }) ++ r.1,
       fl.error_count + r.2.1,
       fl.warn_count + r.2.2.1,
       fl.info_count + r.2.2.2.1,
       name :: r.2.2.2.2)

/-- `_parse_trace_logs_from_directory` (lines 627-691): gather per-file
results in order, then sort the concatenation by timestamp. -/
def parse_trace_logs_from_directory (sources : List (List Char × Option (List (List Char)))) (tid : List Char) : TraceResult :=
  let g := gatherDir tid sources
  let sortedLogs := sort_logs_by_timestamp g.1
  { trace_id := tid, total_logs := sortedLogs.length,
    error_count := g.2.1, warn_count := g.2.2.1,
    info_count := g.2.2.2.1, logs := sortedLogs,
    source_files := g.2.2.2.2 }

/-! ### Helper lemmas -/

theorem parseTraceLines_counts (tid : List Char) (fuel i : Nat) (lines : List (List Char)) :
    (parseTraceLines tid fuel i lines).2.1 =
      (parseTraceLines tid fuel i lines).1.countP (fun e => e.level == LogLevel.ERROR) ∧
    (parseTraceLines tid fuel i lines).2.2.1 =
      (parseTraceLines tid fuel i lines).1.countP (fun e => e.level == LogLevel.WARN) ∧
    (parseTraceLines tid fuel i lines).2.2.2 =
      (parseTraceLines tid fuel i lines).1.countP (fun e => e.level == LogLevel.INFO) := by
  induction fuel, i, lines using parseTraceLines.induct tid with
  | _ => simp_all [parseTraceLines, List.countP_cons, Nat.add_comm]

theorem parse_trace_logs_total_eq_length (source : Option (List (List Char))) (tid : List Char) :
    (parse_trace_logs source tid).total_logs = (parse_trace_logs source tid).logs.length := by
  cases source <;> rfl

theorem parse_trace_logs_counts (source : Option (List (List Char))) (tid : List Char) :
    (parse_trace_logs source tid).error_count =
      (parse_trace_logs source tid).logs.countP (fun e => e.level == LogLevel.ERROR) ∧
    (parse_trace_logs source tid).warn_count =
      (parse_trace_logs source tid).logs.countP (fun e => e.level == LogLevel.WARN) ∧
    (parse_trace_logs source tid).info_count =
      (parse_trace_logs source tid).logs.countP (fun e => e.level == LogLevel.INFO) := by
  cases source with
  | none => simp [parse_trace_logs]
  | some lines => simpa [parse_trace_logs] using parseTraceLines_counts tid lines.length 0 lines

theorem sort_logs_perm (logs : List LogEntry) :
    List.Perm (sort_logs_by_timestamp logs) logs :=
  List.perm_insertionSort logLe logs

theorem sort_logs_length (logs : List LogEntry) :
    (sort_logs_by_timestamp logs).length = logs.length :=
  (sort_logs_perm logs).length_eq

theorem sort_logs_sorted (logs : List LogEntry) :
    List.Sorted logLe (sort_logs_by_timestamp logs) :=
  List.sorted_insertionSort logLe logs

theorem filter_orderedInsert_key_eq (c : Nat) (a : LogEntry) (h : logKey a = c) :
    ∀ L : List LogEntry,
      (List.orderedInsert logLe a L).filter (fun e => logKey e == c) =
        a :: L.filter (fun e => logKey e == c)
  | [] => by simp [List.orderedInsert, h]
  | b :: L => by
    by_cases hb : logLe a b
    · simp [List.orderedInsert, hb, h]
    · have hbk : ¬ logKey b = c := by
        unfold logLe at hb
        omega
      simp [List.orderedInsert, hb, hbk, filter_orderedInsert_key_eq c a h L]

theorem filter_orderedInsert_key_ne (c : Nat) (a : LogEntry) (h : ¬ logKey a = c) :
    ∀ L : List LogEntry,
      (List.orderedInsert logLe a L).filter (fun e => logKey e == c) =
        L.filter (fun e => logKey e == c)
  | [] => by simp [List.orderedInsert, h]
  | b :: L => by
    by_cases hb : logLe a b
    · simp [List.orderedInsert, hb, h]
    · simp only [List.orderedInsert, if_neg hb, List.filter_cons,
        filter_orderedInsert_key_ne c a h L]

/-- Stability of the merge sort: for every key value, the subsequence
of entries with that key is unchanged — equal-key entries keep their
concatenation order. -/
theorem sort_logs_filter_key (c : Nat) (logs : List LogEntry) :
    (sort_logs_by_timestamp logs).filter (fun e => logKey e == c) =
      logs.filter (fun e => logKey e == c) := by
  induction logs with
  | nil => rfl
  | cons a l ih =>
    show (List.orderedInsert logLe a (List.insertionSort logLe l)).filter _ = _
    by_cases h : logKey a = c
    · rw [filter_orderedInsert_key_eq c a h]
      simp [h, ih]
      exact ih
    · rw [filter_orderedInsert_key_ne c a h]
      simp [h]
      exact ih

theorem validPyDT_dtMinKey_le (t : PyDT) (h : validPyDT t = true) :
    dtMinKey ≤ dtKey t := by
  simp only [validPyDT, Bool.and_eq_true, decide_eq_true_eq] at h
  unfold dtMinKey dtKey
  simp only []
  omega

theorem strptimeKey_min_le (fmt : List FTok) (s : List Char) (k : Nat)
    (h : strptimeKey fmt s = some k) : dtMinKey ≤ k := by
  unfold strptimeKey at h
  split at h
  next t rest heq =>
    split at h
    next hcond =>
      cases h
      exact validPyDT_dtMinKey_le _ (by
        rcases Bool.and_eq_true .. |>.mp hcond with ⟨_, hv⟩
        exact hv)
    next => cases h
  next => cases h

/-- `dtMinKey` (the key of `datetime.min`) is a global lower bound of
the sort key. -/
theorem dtMinKey_le_parse_timestamp (ts : List Char) :
    dtMinKey ≤ parse_timestamp ts := by
  unfold parse_timestamp
  cases hp : parse_timestamp_opt ts with
  | none => simp
  | some k =>
    simp only [Option.getD_some]
    unfold parse_timestamp_opt at hp
    split at hp
    · cases hp
    · obtain ⟨fmt, _, hfk⟩ := List.exists_of_findSome?_eq_some hp
      exact strptimeKey_min_le _ _ _ hfk

theorem parseTraceLines_lineNumber_lt (tid : List Char) (fuel i : Nat) (lines : List (List Char)) :
    ∀ e ∈ (parseTraceLines tid fuel i lines).1, i < e.line_number := by
  induction fuel, i, lines using parseTraceLines.induct tid with
  | case1 => simp [parseTraceLines]
  | case2 => simp [parseTraceLines]
  | case3 fuel i line rest hm he ih =>
    intro e hee
    rw [parseTraceLines] at hee
    simp only [hm, he, if_true, reduceIte] at hee
    rcases List.mem_cons.mp hee with rfl | hmem
    · simp
    · have := ih e hmem
      omega
  | case4 fuel i line rest hm he ih =>
    intro e hee
    rw [parseTraceLines] at hee
    simp only [hm, he, if_true, reduceIte] at hee
    rcases List.mem_cons.mp hee with rfl | hmem
    · simp
    · have := ih e hmem
      omega
  | case5 fuel i line rest hm ih =>
    intro e hee
    rw [parseTraceLines] at hee
    simp only [hm, reduceIte] at hee
    have := ih e hee
    omega

theorem parseTraceLines_pairwise (tid : List Char) (fuel i : Nat) (lines : List (List Char)) :
    ((parseTraceLines tid fuel i lines).1).Pairwise
      (fun a b => a.line_number < b.line_number) := by
  induction fuel, i, lines using parseTraceLines.induct tid with
  | case1 => simp [parseTraceLines]
  | case2 => simp [parseTraceLines]
  | case3 fuel i line rest hm he ih =>
    rw [parseTraceLines]
    simp only [hm, he, if_true, reduceIte]
    refine List.Pairwise.cons (fun e hmem => ?_) ih
    have := parseTraceLines_lineNumber_lt tid _ _ _ e hmem
    simp only
    omega
  | case4 fuel i line rest hm he ih =>
    rw [parseTraceLines]
    simp only [hm, he, if_true, reduceIte]
    refine List.Pairwise.cons (fun e hmem => ?_) ih
    have := parseTraceLines_lineNumber_lt tid _ _ _ e hmem
    simp only
    omega
  | case5 fuel i line rest hm ih =>
    rw [parseTraceLines]
    simp only [hm, reduceIte]
    exact ih

theorem parseTraceLines_stack_of_not_error (tid : List Char) (fuel i : Nat) (lines : List (List Char)) :
    ∀ e ∈ (parseTraceLines tid fuel i lines).1, e.level ≠ .ERROR → e.stack_trace = [] := by
  induction fuel, i, lines using parseTraceLines.induct tid with
  | case1 => simp [parseTraceLines]
  | case2 => simp [parseTraceLines]
  | case3 fuel i line rest hm he ih =>
    intro e hee hne
    rw [parseTraceLines] at hee
    simp only [hm, he, if_true, reduceIte] at hee
    rcases List.mem_cons.mp hee with rfl | hmem
    · simp at hne
    · exact ih e hmem hne
  | case4 fuel i line rest hm he ih =>
    intro e hee hne
    rw [parseTraceLines] at hee
    simp only [hm, he, if_true, reduceIte] at hee
    rcases List.mem_cons.mp hee with rfl | hmem
    · rfl
    · exact ih e hmem hne
  | case5 fuel i line rest hm ih =>
    intro e hee hne
    rw [parseTraceLines] at hee
    simp only [hm, reduceIte] at hee
    exact ih e hee hne

theorem gatherDir_length (tid : List Char) :
    ∀ sources : List (List Char × Option (List (List Char))),
      (gatherDir tid sources).1.length =
        (sources.map (fun s => (parse_trace_logs s.2 tid).logs.length)).sum
  | [] => rfl
  | (n, c) :: rest => by
    simp only [gatherDir, List.map_cons, List.sum_cons]
    by_cases h : (parse_trace_logs c tid).logs.isEmpty
    · simp [h, List.isEmpty_iff.mp h, gatherDir_length tid rest]
    · simp [h, gatherDir_length tid rest]

theorem gatherDir_counts_sum (tid : List Char) :
    ∀ sources : List (List Char × Option (List (List Char))),
      (gatherDir tid sources).2.1 =
        (sources.map (fun s => (parse_trace_logs s.2 tid).error_count)).sum ∧
      (gatherDir tid sources).2.2.1 =
        (sources.map (fun s => (parse_trace_logs s.2 tid).warn_count)).sum ∧
      (gatherDir tid sources).2.2.2.1 =
        (sources.map (fun s => (parse_trace_logs s.2 tid).info_count)).sum
  | [] => by simp [gatherDir]
  | (n, c) :: rest => by
    have ih := gatherDir_counts_sum tid rest
    simp only [gatherDir, List.map_cons, List.sum_cons]
    by_cases h : (parse_trace_logs c tid).logs.isEmpty
    · have hc := parse_trace_logs_counts c tid
      rw [List.isEmpty_iff.mp h] at hc
      simp only [List.countP_nil] at hc
      simp [h, hc.1, hc.2.1, hc.2.2, ih.1, ih.2.1, ih.2.2]
    · simp [h, ih.1, ih.2.1, ih.2.2]

theorem countP_tag_map (n : List Char) (l : List LogEntry) (lv : LogLevel) :
    (l.map (fun e => { e with source_file := some n })).countP (fun e => e.level == lv) =
      l.countP (fun e => e.level == lv) := by
  induction l with
  | nil => rfl
  | cons a l ih => simp [List.countP_cons, ih]

theorem gatherDir_counts_countP (tid : List Char) :
    ∀ sources : List (List Char × Option (List (List Char))),
      (gatherDir tid sources).2.1 =
        (gatherDir tid sources).1.countP (fun e => e.level == LogLevel.ERROR) ∧
      (gatherDir tid sources).2.2.1 =
        (gatherDir tid sources).1.countP (fun e => e.level == LogLevel.WARN) ∧
      (gatherDir tid sources).2.2.2.1 =
        (gatherDir tid sources).1.countP (fun e => e.level == LogLevel.INFO)
  | [] => by simp [gatherDir]
  | (n, c) :: rest => by
    have ih := gatherDir_counts_countP tid rest
    have hc := parse_trace_logs_counts c tid
    simp only [gatherDir]
    by_cases h : (parse_trace_logs c tid).logs.isEmpty
    · simp [h, ih.1, ih.2.1, ih.2.2]
    · rw [if_neg h]
      refine ⟨?_, ?_, ?_⟩
      · show (parse_trace_logs c tid).error_count + (gatherDir tid rest).2.1 = _
        rw [List.countP_append, countP_tag_map, hc.1, ih.1]
      · show (parse_trace_logs c tid).warn_count + (gatherDir tid rest).2.2.1 = _
        rw [List.countP_append, countP_tag_map, hc.2.1, ih.2.1]
      · show (parse_trace_logs c tid).info_count + (gatherDir tid rest).2.2.2.1 = _
        rw [List.countP_append, countP_tag_map, hc.2.2, ih.2.2]

/-! ### Claim theorems -/

/-- C5: for any two sources A and B, the merged result's `logs` length
is the sum of the two single-source entry-list lengths, and each
per-level count in the merged result is the sum of the per-source
counts — no entry is lost or duplicated by the merge. -/
theorem C5_merge_two_sources_sums (A B : List Char × Option (List (List Char))) (tid : List Char) :
    (parse_trace_logs_from_directory [A, B] tid).total_logs =
      (parse_trace_logs A.2 tid).total_logs + (parse_trace_logs B.2 tid).total_logs ∧
    (parse_trace_logs_from_directory [A, B] tid).error_count =
      (parse_trace_logs A.2 tid).error_count + (parse_trace_logs B.2 tid).error_count ∧
    (parse_trace_logs_from_directory [A, B] tid).warn_count =
      (parse_trace_logs A.2 tid).warn_count + (parse_trace_logs B.2 tid).warn_count ∧
    (parse_trace_logs_from_directory [A, B] tid).info_count =
      (parse_trace_logs A.2 tid).info_count + (parse_trace_logs B.2 tid).info_count := by
  have hl := gatherDir_length tid [A, B]
  have hcnt := gatherDir_counts_sum tid [A, B]
  have hAt := parse_trace_logs_total_eq_length A.2 tid
  have hBt := parse_trace_logs_total_eq_length B.2 tid
  simp only [List.map_cons, List.map_nil, List.sum_cons, List.sum_nil] at hl hcnt
  refine ⟨?_, ?_, ?_, ?_⟩
  · show (sort_logs_by_timestamp (gatherDir tid [A, B]).1).length = _
    rw [sort_logs_length, hl, hAt, hBt]
    omega
  · show (gatherDir tid [A, B]).2.1 = _
    rw [hcnt.1]
    omega
  · show (gatherDir tid [A, B]).2.2.1 = _
    rw [hcnt.2.1]
    omega
  · show (gatherDir tid [A, B]).2.2.2.1 = _
    rw [hcnt.2.2]
    omega

/-- C7: a failed read (`none` source) yields the empty result with zero
counts, and in directory mode such a source is skipped: the merged
result over `(name, failed) :: rest` equals the one over `rest`
alone. -/
theorem C7_read_failure_isolated (tid name : List Char)
    (rest : List (List Char × Option (List (List Char)))) :
    (parse_trace_logs none tid).logs = [] ∧
    (parse_trace_logs none tid).total_logs = 0 ∧
    (parse_trace_logs none tid).error_count = 0 ∧
    (parse_trace_logs none tid).warn_count = 0 ∧
    (parse_trace_logs none tid).info_count = 0 ∧
    parse_trace_logs_from_directory ((name, none) :: rest) tid =
      parse_trace_logs_from_directory rest tid := by
  refine ⟨rfl, rfl, rfl, rfl, rfl, ?_⟩
  unfold parse_trace_logs_from_directory
  simp [gatherDir, parse_trace_logs]

/-- C8: within one source, entries are returned with strictly
increasing 1-based line numbers — scanning never reorders and never
revisits a consumed continuation line. -/
theorem C8_lineNumbers_strictly_increasing (src : List (List Char)) (tid : List Char) :
    ((parse_trace_logs (some src) tid).logs).Pairwise
      (fun a b => a.line_number < b.line_number) := by
  simpa [parse_trace_logs] using parseTraceLines_pairwise tid src.length 0 src

/-- C10: in every single-source result and every directory-merge
result, `error_count`/`warn_count`/`info_count` are exactly the number
of ERROR/WARN/INFO entries in `logs`, and `total_logs` is the length of
`logs` (DEBUG and UNKNOWN entries are in `logs` but in no bucket). -/
theorem C10_counts_match_logs (source : Option (List (List Char)))
    (sources : List (List Char × Option (List (List Char)))) (tid : List Char) :
    ((parse_trace_logs source tid).error_count =
        (parse_trace_logs source tid).logs.countP (fun e => e.level == LogLevel.ERROR) ∧
      (parse_trace_logs source tid).warn_count =
        (parse_trace_logs source tid).logs.countP (fun e => e.level == LogLevel.WARN) ∧
      (parse_trace_logs source tid).info_count =
        (parse_trace_logs source tid).logs.countP (fun e => e.level == LogLevel.INFO) ∧
      (parse_trace_logs source tid).total_logs =
        (parse_trace_logs source tid).logs.length) ∧
    ((parse_trace_logs_from_directory sources tid).error_count =
        (parse_trace_logs_from_directory sources tid).logs.countP (fun e => e.level == LogLevel.ERROR) ∧
      (parse_trace_logs_from_directory sources tid).warn_count =
        (parse_trace_logs_from_directory sources tid).logs.countP (fun e => e.level == LogLevel.WARN) ∧
      (parse_trace_logs_from_directory sources tid).info_count =
        (parse_trace_logs_from_directory sources tid).logs.countP (fun e => e.level == LogLevel.INFO) ∧
      (parse_trace_logs_from_directory sources tid).total_logs =
        (parse_trace_logs_from_directory sources tid).logs.length) := by
  have h1 := parse_trace_logs_counts source tid
  have h2 := gatherDir_counts_countP tid sources
  have hperm := sort_logs_perm (gatherDir tid sources).1
  refine ⟨⟨h1.1, h1.2.1, h1.2.2, parse_trace_logs_total_eq_length source tid⟩, ?_, ?_, ?_, rfl⟩
  · show (gatherDir tid sources).2.1 = (sort_logs_by_timestamp (gatherDir tid sources).1).countP _
    rw [hperm.countP_eq, h2.1]
  · show (gatherDir tid sources).2.2.1 = (sort_logs_by_timestamp (gatherDir tid sources).1).countP _
    rw [hperm.countP_eq, h2.2.1]
  · show (gatherDir tid sources).2.2.2.1 = (sort_logs_by_timestamp (gatherDir tid sources).1).countP _
    rw [hperm.countP_eq, h2.2.2]

/-- C4: continuation lines are collected into `stack_trace` only after
an ERROR-level match: every non-ERROR entry has an empty `stack_trace`,
and after a matched non-ERROR line an immediately following indented
continuation line is scanned normally — if it matches the identifier it
becomes its own entry at the next line number. -/
theorem C4_stack_only_after_error (tid : List Char) (lines : List (List Char))
    (fuel i : Nat) (l1 l2 : List Char) (rest : List (List Char))
    (hm1 : matchesTraceLine tid l1 = true)
    (hne : extract_log_level l1 ≠ .ERROR)
    (_hcont : isContinuationLine l2 = true)
    (hm2 : matchesTraceLine tid l2 = true) :
    (∀ e ∈ (parse_trace_logs (some lines) tid).logs,
        e.level ≠ .ERROR → e.stack_trace = []) ∧
    ∃ e2 tl, (parseTraceLines tid (fuel + 2) i (l1 :: l2 :: rest)).1 =
        { line_number := i + 1, timestamp := extract_timestamp l1,
          level := extract_log_level l1, content := pyStrip l1,
          stack_trace := [] } :: e2 :: tl ∧
      e2.line_number = i + 2 ∧ e2.content = pyStrip l2 ∧
      e2.level = extract_log_level l2 := by
  constructor
  · intro e he
    exact parseTraceLines_stack_of_not_error tid lines.length 0 lines e
      (by simpa [parse_trace_logs] using he)
  · rw [parseTraceLines]
    simp only [hm1, if_true, reduceIte, if_neg hne]
    rw [parseTraceLines]
    simp only [hm2, if_true, reduceIte]
    by_cases he2 : extract_log_level l2 = .ERROR
    · rw [if_pos he2]
      exact ⟨_, _, rfl, rfl, rfl, rfl⟩
    · rw [if_neg he2]
      exact ⟨_, _, rfl, rfl, rfl, rfl⟩

theorem C4_witness :
    matchesTraceLine (("req-42").toList) (("2024-01-01 10:00:00 WARN [req-42] slow\n").toList) = true ∧
    extract_log_level (("2024-01-01 10:00:00 WARN [req-42] slow\n").toList) ≠ .ERROR ∧
    isContinuationLine (("\tat req-42 handler step\n").toList) = true ∧
    ((∀ e ∈ (parse_trace_logs
          (some [("2024-01-01 10:00:00 WARN [req-42] slow\n").toList,
                 ("\tat req-42 handler step\n").toList])
          (("req-42").toList)).logs,
        e.level ≠ .ERROR → e.stack_trace = []) ∧
      ∃ e2 tl, (parseTraceLines (("req-42").toList) 2 0
          [("2024-01-01 10:00:00 WARN [req-42] slow\n").toList,
           ("\tat req-42 handler step\n").toList]).1 =
          { line_number := 1,
            timestamp := extract_timestamp (("2024-01-01 10:00:00 WARN [req-42] slow\n").toList),
            level := extract_log_level (("2024-01-01 10:00:00 WARN [req-42] slow\n").toList),
            content := pyStrip (("2024-01-01 10:00:00 WARN [req-42] slow\n").toList),
            stack_trace := [] } :: e2 :: tl ∧
        e2.line_number = 2 ∧
        e2.content = pyStrip (("\tat req-42 handler step\n").toList) ∧
        e2.level = extract_log_level (("\tat req-42 handler step\n").toList)) :=
  ⟨by decide, by decide, by decide,
    C4_stack_only_after_error (("req-42").toList)
      [("2024-01-01 10:00:00 WARN [req-42] slow\n").toList,
       ("\tat req-42 handler step\n").toList]
      0 0 (("2024-01-01 10:00:00 WARN [req-42] slow\n").toList)
      (("\tat req-42 handler step\n").toList) []
      (by decide) (by decide) (by decide) (by decide)⟩

/-- C9: level detection is case-sensitive, scanning for the uppercase
keywords in precedence ERROR > WARN > INFO > DEBUG; a line containing
none of them (e.g. only lowercase `error`) is UNKNOWN, even though the
correlation-id match is case-insensitive. -/
theorem C9_level_detection_case_sensitive (line : List Char) :
    (containsLit (("ERROR").toList) line = true →
      extract_log_level line = .ERROR) ∧
    (containsLit (("ERROR").toList) line = false →
      containsLit (("WARN").toList) line = true →
      extract_log_level line = .WARN) ∧
    (containsLit (("ERROR").toList) line = false →
      containsLit (("WARN").toList) line = false →
      containsLit (("INFO").toList) line = true →
      extract_log_level line = .INFO) ∧
    (containsLit (("ERROR").toList) line = false →
      containsLit (("WARN").toList) line = false →
      containsLit (("INFO").toList) line = false →
      containsLit (("DEBUG").toList) line = true →
      extract_log_level line = .DEBUG) ∧
    (containsLit (("ERROR").toList) line = false →
      containsLit (("WARN").toList) line = false →
      containsLit (("INFO").toList) line = false →
      containsLit (("DEBUG").toList) line = false →
      extract_log_level line = .UNKNOWN) ∧
    extract_log_level (("2024-01-01 10:00:00 error [req-42] boom").toList) = .UNKNOWN ∧
    matchesTraceLine (("req-42").toList) (("2024-01-01 10:00:00 error [REQ-42] boom").toList) = true := by
  refine ⟨?_, ?_, ?_, ?_, ?_, by decide, by decide⟩
  all_goals intros
  all_goals simp_all [extract_log_level]

theorem C9_witness :
    extract_log_level (("2024-01-01 10:00:00 WARN [req-42] slow").toList) = .WARN :=
  (C9_level_detection_case_sensitive
    (("2024-01-01 10:00:00 WARN [req-42] slow").toList)).2.1
    (by decide) (by decide)

/-- C1: for the given four-line source, extraction with id `req-42`
followed by the merge yields exactly 3 entries, chronologically ordered
WARN (09:59:59, line 4), INFO (10:00:00, line 1), ERROR (10:00:05,
line 2), and the ERROR entry's stack trace is exactly
`["at com.foo.Bar.baz"]` (the tab-indented line 3, trimmed). -/
theorem C1_scenario_three_entries_sorted :
    (parse_trace_logs_from_directory
        [((("app.log").toList),
          some [("2024-01-01 10:00:00 INFO [req-42] start\n").toList,
                ("2024-01-01 10:00:05 ERROR [req-42] boom\n").toList,
                ("\tat com.foo.Bar.baz\n").toList,
                ("2024-01-01 09:59:59 WARN [req-42] before").toList])]
        (("req-42").toList)).total_logs = 3 ∧
    (parse_trace_logs_from_directory
        [((("app.log").toList),
          some [("2024-01-01 10:00:00 INFO [req-42] start\n").toList,
                ("2024-01-01 10:00:05 ERROR [req-42] boom\n").toList,
                ("\tat com.foo.Bar.baz\n").toList,
                ("2024-01-01 09:59:59 WARN [req-42] before").toList])]
        (("req-42").toList)).logs.map
        (fun e => (e.level, e.line_number, e.timestamp, e.stack_trace)) =
      [(.WARN, 4, ("2024-01-01 09:59:59").toList, []),
       (.INFO, 1, ("2024-01-01 10:00:00").toList, []),
       (.ERROR, 2, ("2024-01-01 10:00:05").toList,
        [("at com.foo.Bar.baz").toList])] := by
  decide

/-- C2 counterexample: a line whose only occurrence of `req-42` is
inside the longer token `req-429` matches anyway (the sixth pattern is
the raw identifier as a plain substring) and produces a LogEntry,
refuting the claimed exclusion. -/
theorem C2_counterexample :
    matchesTraceLine (("req-42").toList)
      (("2024-01-01 10:00:00 INFO trace req-429 end\n").toList) = true ∧
    (parse_trace_logs
        (some [("2024-01-01 10:00:00 INFO trace req-429 end\n").toList])
        (("req-42").toList)).total_logs = 1 := by
  decide

/-- C2 (amended): the match test accepts any line containing `[req-42]`
case-insensitively, and more generally any line containing `req-42` as
a case-insensitive plain substring — so a line containing `req-429`
also matches and produces a LogEntry. -/
theorem C2_match_amended (line : List Char) :
    (containsCI (("[req-42]").toList) line = true →
      matchesTraceLine (("req-42").toList) line = true) ∧
    (containsCI (("req-42").toList) line = true →
      matchesTraceLine (("req-42").toList) line = true) ∧
    matchesTraceLine (("req-42").toList) (("xx [REQ-42] yy").toList) = true ∧
    (parse_trace_logs
        (some [("2024-01-01 10:00:00 INFO trace req-429 end\n").toList])
        (("req-42").toList)).total_logs = 1 := by
  refine ⟨?_, ?_, by decide, by decide⟩
  · intro h
    unfold matchesTraceLine
    have h3 : ('[' :: ((("req-42").toList) ++ [']'])) = (("[req-42]").toList) := rfl
    rw [h3, h]
    simp
  · intro h
    unfold matchesTraceLine
    rw [h]
    simp

theorem C2_witness :
    matchesTraceLine (("req-42").toList) (("abc [REQ-42] def").toList) = true :=
  (C2_match_amended (("abc [REQ-42] def").toList)).1 (by decide)

/-- C3 counterexample: an entry whose timestamp parses to exactly
`datetime.min` (0001-01-01 00:00:00) ties with absent-timestamp entries
and, by stability, keeps its earlier concatenation position — here the
parsed entry (line 1) precedes the absent one (line 2) in the merged
output, refuting "every entry with timestampParsed absent precedes
every entry with a parsed timestamp". -/
theorem C3_counterexample :
    (parse_trace_logs_from_directory
        [((("a.log").toList),
          some [("0001-01-01 00:00:00 INFO [req-42] early\n").toList,
                ("[req-42] no timestamp here\n").toList])]
        (("req-42").toList)).logs.map
        (fun e => ((parse_timestamp_opt e.timestamp).isSome, e.line_number)) =
      [(true, 1), (false, 2)] := by
  decide

/-- C3 (amended): the merge stable-sorts the concatenation by the
parsed key: keys are non-decreasing in the output; for every key value
the subsequence of entries with that key is exactly the input's
(stability — in particular, entries with `timestampParsed` absent, all
of which carry the minimum key, keep their concatenation order among
themselves, and if every entry parses the output is non-decreasing by
parsed timestamp); an absent entry carries the global minimum key, so
only entries with that same minimal key (such as one whose timestamp
parses to exactly 0001-01-01 00:00:00) can precede it. -/
theorem C3_stable_merge_order (logs : List LogEntry) (c : Nat) (e : LogEntry)
    (sources : List (List Char × Option (List (List Char)))) (tid : List Char) :
    (sort_logs_by_timestamp logs).Pairwise (fun a b => logKey a ≤ logKey b) ∧
    (sort_logs_by_timestamp logs).filter (fun x => logKey x == c) =
      logs.filter (fun x => logKey x == c) ∧
    (parse_trace_logs_from_directory sources tid).logs =
      sort_logs_by_timestamp (gatherDir tid sources).1 ∧
    (parse_timestamp_opt e.timestamp = none → logKey e = dtMinKey) ∧
    dtMinKey ≤ logKey e := by
  refine ⟨sort_logs_sorted logs, sort_logs_filter_key c logs, rfl, ?_,
    dtMinKey_le_parse_timestamp e.timestamp⟩
  intro h
  unfold logKey parse_timestamp
  rw [h]
  rfl

theorem C3_witness :
    logKey { line_number := 1, timestamp := ("Unknown").toList, level := .INFO,
             content := [], stack_trace := [], source_file := none } = dtMinKey :=
  (C3_stable_merge_order [] 0
    { line_number := 1, timestamp := ("Unknown").toList, level := .INFO,
      content := [], stack_trace := [], source_file := none } [] []).2.2.2.1
    (by decide)

/-- C6 counterexample: the matched line
`2024-13-01 10:00:00 ERROR [req-42] x` yields an entry whose
`timestampRaw` is the regex-shaped but invalid `2024-13-01 10:00:00` —
not the sentinel "Unknown" — yet no strptime format parses it
(month 13), so its timestampParsed is absent and its sort key is
`datetime.min`: this refutes both directions of the claim, "cannot be
parsed → timestampRaw is Unknown" and "timestampRaw not Unknown →
timestampParsed present". -/
theorem C6_counterexample :
    (parse_trace_logs
        (some [("2024-13-01 10:00:00 ERROR [req-42] x\n").toList])
        (("req-42").toList)).logs.map (fun e => e.timestamp) =
      [("2024-13-01 10:00:00").toList] ∧
    ¬ ("2024-13-01 10:00:00").toList = unknownTs ∧
    parse_timestamp_opt (("2024-13-01 10:00:00").toList) = none ∧
    parse_timestamp (("2024-13-01 10:00:00").toList) = dtMinKey := by
  decide

/-- C6 (amended): when no timestamp pattern occurs in a line,
`timestampRaw` is the sentinel "Unknown"; every entry whose timestamp
fails to parse — the Unknown sentinel in particular — receives the key
of `datetime.min`, the global minimum, and therefore sorts as the
minimum value in the merge; but `timestampRaw ≠ "Unknown"` does not
imply a parsed timestamp: a pattern-shaped yet semantically invalid
timestamp (month 13) also fails to parse and likewise sorts as the
minimum. -/
theorem C6_unknown_sorts_minimal (line ts : List Char) :
    (searchFirst matchTs1 line = none → searchFirst matchTs2 line = none →
      searchFirst matchTs3 line = none → extract_timestamp line = unknownTs) ∧
    (parse_timestamp_opt ts = none → parse_timestamp ts = dtMinKey) ∧
    parse_timestamp_opt unknownTs = none ∧
    dtMinKey ≤ parse_timestamp ts ∧
    ¬ ("2024-13-01 10:00:00").toList = unknownTs ∧
    parse_timestamp_opt (("2024-13-01 10:00:00").toList) = none := by
  refine ⟨?_, ?_, by decide, dtMinKey_le_parse_timestamp ts, by decide, by decide⟩
  · intro h1 h2 h3
    unfold extract_timestamp
    rw [h1, h2, h3]
  · intro h
    unfold parse_timestamp
    rw [h]
    rfl

theorem C6_witness :
    extract_timestamp (("INFO [req-42] hello").toList) = unknownTs ∧
    parse_timestamp (("Unknown").toList) = dtMinKey :=
  ⟨(C6_unknown_sorts_minimal (("INFO [req-42] hello").toList)
      (("Unknown").toList)).1 (by decide) (by decide) (by decide),
   (C6_unknown_sorts_minimal (("INFO [req-42] hello").toList)
      (("Unknown").toList)).2.1 (by decide)⟩

end OpsPilot
